import Mathlib

/-!
# bosh-dns `monitoring.pluginHandlerAdapter`

A shallow embedding of `src/bosh-dns/dns/server/monitoring/dns_request_type.go`
and the properties of its request dispatch, frequency counting and hourly
snapshot.

Modelling conventions.

* A Go `map[string]int` is a list of entries with pairwise distinct keys
  (`GoMap`).  The order of the list is not observable through `get`; where the
  source ranges over a map the order is chosen by `Env.rangeOrder`, an arbitrary
  permutation, because Go leaves the iteration order unspecified.
* Go `int` is the 64-bit signed integer of the platforms the server is built
  for.  A count is an `Int`, and `++` wraps around at the machine word
  (`wrapInt64`): the largest value is followed by the smallest.
* The downstream handlers, the metrics sink and the file system are external.
  Calls to them are recorded in a trace of `Event`s, and the files under
  `/tmp` are an explicit store `FS`; `os.Create` and `WriteString` may fail as
  decided by the environment.
* `ServeDNS` has a value receiver: the callee works on a copy of the struct.
  The two maps are reference values, so element updates are seen by the
  caller, while assignments to the fields `intRequests` and `extRequests`
  only change the copy.  The result therefore reports both the caller's
  adapter (`adapter`) and the callee's copy at return (`receiver`).
* `sync.RWMutex` has no effect on a sequential run and is not modelled.
-/

namespace Monitoring

/-! ## Data model -/

/-- Go `type DNSRequestType string`. -/
abbrev DNSRequestType := String

/-- Constant `DNSRequestTypeInternal`. -/
def DNSRequestTypeInternal : DNSRequestType := "internal"

/-- Constant `DNSRequestTypeExternal`. -/
def DNSRequestTypeExternal : DNSRequestType := "external"

/-- The part of `context.Context` the adapter reads: the value stored under the
package-private key `dnsRequestContext`, `none` when the key is absent (Go `nil`).
Only `NewRequestContext` stores a value under that key, so it is a `DNSRequestType`. -/
structure Context where
  Value : Option DNSRequestType
deriving DecidableEq, Repr

/-- A context without a request type, `context.Background()`. -/
def Background : Context := ⟨none⟩

/-- Go `NewRequestContext`. -/
def NewRequestContext (t : DNSRequestType) : Context := ⟨some t⟩

/-- The fields of `dns.Question`. -/
structure Question where
  Name : String
  Qtype : Nat
  Qclass : Nat
deriving DecidableEq, Repr

/-- The part of `dns.Msg` the adapter reads. -/
structure Msg where
  Question : List Question
deriving DecidableEq, Repr

/-- An opaque `dns.ResponseWriter`. -/
structure ResponseWriter where
  id : Nat
deriving DecidableEq, Repr

/-- An opaque non-nil `dns.Handler`. -/
structure Handler where
  id : Nat
deriving DecidableEq, Repr

/-- Go `m[k] = v` on the entries of a map: an existing key is overwritten in
place, a new key is added. -/
def setEntry {κ ν : Type} [DecidableEq κ] : List (κ × ν) → κ → ν → List (κ × ν)
  | [], k, v => [(k, v)]
  | (k', v') :: rest, k, v =>
    if k' = k then (k, v) :: rest else (k', v') :: setEntry rest k v

/-- A Go `map[string]int`: entries with pairwise distinct keys. -/
structure GoMap where
  entries : List (String × Int)
  nodupKeys : (entries.map Prod.fst).Nodup
deriving DecidableEq

/-- Go `make(map[string]int)`. -/
def GoMap.empty : GoMap := ⟨[], List.nodup_nil⟩

/-- Go `v, ok := m[k]`. -/
def GoMap.lookup (m : GoMap) (k : String) : Option Int := m.entries.lookup k

/-- Go `m[k]`: the zero value when the key is absent. -/
def GoMap.get (m : GoMap) (k : String) : Int := (m.lookup k).getD 0

/-- The largest Go `int`, `math.MaxInt64`. -/
def MaxInt64 : Int := 9223372036854775807

/-- The smallest Go `int`, `math.MinInt64`. -/
def MinInt64 : Int := -9223372036854775808

/-- The value of a Go `int` expression whose mathematical result is `x`: reduction
modulo `2^64` into the range from `MinInt64` to `MaxInt64`. -/
def wrapInt64 (x : Int) : Int :=
  (x + 9223372036854775808) % 18446744073709551616 - 9223372036854775808

/-- Go `m[k]++`; the addition is that of Go `int` and wraps around. -/
def GoMap.incr (m : GoMap) (k : String) : GoMap :=
  ⟨setEntry m.entries k (wrapInt64 (m.get k + 1)), by
    have key : ∀ (l : List (String × Int)) (v : Int),
        (setEntry l k v).map Prod.fst =
          if k ∈ l.map Prod.fst then l.map Prod.fst else l.map Prod.fst ++ [k] := by
      intro l v
      induction l with
      | nil => simp [setEntry]
      | cons e rest ih =>
        obtain ⟨k', v'⟩ := e
        by_cases hk : k' = k
        · simp [setEntry, hk]
        · have hk' : ¬ k = k' := fun h => hk h.symm
          by_cases hin : k ∈ rest.map Prod.fst
          · simp only [setEntry, hk, if_false, List.map_cons, ih, hin, if_true,
              List.mem_cons, or_true]
          · simp only [setEntry, hk, if_false, List.map_cons, ih, hin, List.mem_cons, hk',
              or_self, List.cons_append]
    rw [key]
    split
    · exact m.nodupKeys
    · rename_i hin
      exact List.Nodup.append m.nodupKeys (List.nodup_singleton k)
        (by simpa [List.disjoint_singleton] using hin)⟩

/-- Go `map[int][]string`, the value `invertMap` builds.  It is only read by key. -/
abbrev InvMap := List (Int × List String)

/-- Go `invMap[k]`: the nil slice when the key is absent. -/
def InvMap.get (inv : InvMap) (k : Int) : List String := (inv.lookup k).getD []

/-- Go `invMap[k] = names`. -/
def InvMap.set (inv : InvMap) (k : Int) (names : List String) : InvMap := setEntry inv k names

/-- The adapter's `RequestCounter` (an interface value, assumed non-nil as the
source calls it without a check). -/
structure RequestCounter where
  id : Nat
deriving DecidableEq, Repr

/-- Go `type pluginHandlerAdapter struct`; a handler is `none` when the field is
nil.  `intRequests` and `extRequests` hold the contents of the map objects the
fields refer to. -/
structure pluginHandlerAdapter where
  internalHandler : Option Handler
  externalHandler : Option Handler
  requestManager : RequestCounter
  intRequests : GoMap
  extRequests : GoMap
deriving DecidableEq

/-- Go `NewPluginHandlerAdapter`. -/
def NewPluginHandlerAdapter (internalHandler externalHandler : Option Handler)
    (requestManager : RequestCounter) : pluginHandlerAdapter :=
  { internalHandler := internalHandler
    externalHandler := externalHandler
    requestManager := requestManager
    intRequests := GoMap.empty
    extRequests := GoMap.empty }

/-- Calls the adapter makes to its collaborators and to the file system. -/
inductive Event where
  /-- The call `p.externalHandler.ServeDNS(writer, m)`. -/
  | externalHandlerServeDNS (writer : ResponseWriter) (m : Msg)
  /-- The call `p.internalHandler.ServeDNS(writer, m)`. -/
  | internalHandlerServeDNS (writer : ResponseWriter) (m : Msg)
  /-- The call `p.requestManager.IncrementExternalCounter()`. -/
  | IncrementExternalCounter (rm : RequestCounter)
  /-- The call `p.requestManager.IncrementInternalCounter()`. -/
  | IncrementInternalCounter (rm : RequestCounter)
  /-- The call `os.Stat(name)`. -/
  | Stat (name : String)
  /-- The call `os.Create(name)`, with whether it returned a file. -/
  | Create (name : String) (ok : Bool)
  /-- The call `WriteString(data)` on the open file `name`. -/
  | WriteString (name : String) (data : String)
deriving DecidableEq, Repr

/-- Whether an event is a file-system call. -/
def Event.isFileOp : Event → Bool
  | .Stat _ => true
  | .Create _ _ => true
  | .WriteString _ _ => true
  | _ => false

/-- Whether an event creates or writes an artifact. -/
def Event.isWrite : Event → Bool
  | .Create _ _ => true
  | .WriteString _ _ => true
  | _ => false

/-! ## Time and the file system -/

/-- A wall-clock reading of `time.Now()`. -/
structure Time where
  Year : Nat
  Month : Nat
  Day : Nat
  Hour : Nat
  Minute : Nat
  Second : Nat
deriving DecidableEq, Repr

/-- Decimal rendering padded with zeros on the left to `width` digits. -/
def zeroPad (width n : Nat) : String :=
  String.mk (List.replicate (width - (toString n).length) '0') ++ toString n

/-- Go `t.Format("2006-01-02-15")`: the hour bucket of `t`. -/
def Time.Format (t : Time) : String :=
  zeroPad 4 t.Year ++ "-" ++ zeroPad 2 t.Month ++ "-" ++ zeroPad 2 t.Day ++ "-" ++
    zeroPad 2 t.Hour

/-- The files of the artifact directory: path and content. -/
abbrev FS := List (String × String)

/-- Whether `os.Stat(name)` finds the file; the source tests `os.IsNotExist` of the error. -/
def FS.exists (fs : FS) (name : String) : Bool := (fs.lookup name).isSome

/-- An order in which `range` may visit the entries of a map: any permutation. -/
structure RangeOrder where
  order : List (String × Int) → List (String × Int)
  perm : ∀ l, (order l).Perm l

/-- What a call of `ServeDNS` gets from outside the program. -/
structure Env where
  /-- the value of `time.Now()` -/
  now : Time
  /-- the iteration order of `range` over a map -/
  rangeOrder : RangeOrder
  /-- whether `os.Create(name)` fails (it then returns a nil file) -/
  createFails : String → Bool
  /-- whether `WriteString` on the file `name` fails -/
  writeFails : String → Bool

/-- The statements `f, _ := os.Create(name); defer f.Close(); f.WriteString(data)`.
A failed `Create` returns a nil file, on which `WriteString` and `Close` return
an error and do nothing.  A successful `Create` leaves an empty file, a failed
write leaves it as it is. -/
def createAndWrite (env : Env) (fs : FS) (name data : String) : FS × List Event :=
  if env.createFails name then
    (fs, [Event.Create name false])
  else if env.writeFails name then
    (setEntry fs name "", [Event.Create name true, Event.WriteString name data])
  else
    (setEntry fs name data, [Event.Create name true, Event.WriteString name data])

/-! ## `invertMap` and the ranking -/

/-- Go `invertMap`; `m` lists the entries of the map in the order `range` visits them. -/
def invertMap (m : List (String × Int)) : InvMap × List Int :=
  m.foldl (fun (acc : InvMap × List Int) (e : String × Int) =>
    let found := acc.2.foldl (fun found i => if i = e.2 then true else found) false
    let newKeys := if !found then acc.2 ++ [e.2] else acc.2
    (acc.1.set e.2 (acc.1.get e.2 ++ [e.1]), newKeys)) ([], [])

/-- Go `sort.Sort(sort.Reverse(sort.IntSlice(keys)))`: descending order. -/
def sortReverse (keys : List Int) : List Int :=
  keys.insertionSort (fun a b => b ≤ a)

/-- Go `fmt.Sprintf("Count: %d Name(s): %s.\n", count, names)`. -/
def formatLevel (count : Int) (names : List String) : String :=
  "Count: " ++ toString count ++ " Name(s): [" ++ String.intercalate " " names ++ "].\n"

/-- The loop `for ind, k := range keys` that appends one line per key to `data`
and breaks when `ind > 100`. -/
def renderLoop (invMap : InvMap) : Nat → List Int → String → String
  | _, [], data => data
  | ind, k :: keys, data =>
    if ind > 100 then data
    else renderLoop invMap (ind + 1) keys (data ++ formatLevel k (invMap.get k))

/-- The text written for one store: lines 140 to 161 of the source for one of the
two maps. -/
def snapshotData (order : RangeOrder) (store : GoMap) : String :=
  let (invMap, keys) := invertMap (order.order store.entries)
  renderLoop invMap 0 (sortReverse keys) ""

/-- The levels of a store in rank order: the descending keys of `invertMap`, each
with the names `invMap` holds for it. -/
def rankedLevels (m : List (String × Int)) : List (Int × List String) :=
  (sortReverse (invertMap m).2).map (fun k => (k, (invertMap m).1.get k))

/-! ## `ServeDNS` -/

/-- The loop `for _, q := range m.Question { store[q.Name]++ }`. -/
def countQuestions (store : GoMap) (qs : List Question) : GoMap :=
  qs.foldl (fun s q => s.incr q.Name) store

/-- Lines 116 to 132: count, forward and report to the metrics sink. -/
def dispatch (p : pluginHandlerAdapter) (v : DNSRequestType) (writer : ResponseWriter)
    (m : Msg) : pluginHandlerAdapter × List Event :=
  if p.externalHandler ≠ none ∧ v = DNSRequestTypeExternal then
    ({ p with extRequests := countQuestions p.extRequests m.Question },
      [Event.externalHandlerServeDNS writer m,
       Event.IncrementExternalCounter p.requestManager])
  else if p.internalHandler ≠ none ∧ v = DNSRequestTypeInternal then
    ({ p with intRequests := countQuestions p.intRequests m.Question },
      [Event.internalHandlerServeDNS writer m,
       Event.IncrementInternalCounter p.requestManager])
  else
    (p, [])

/-- Name of the internal artifact of the hour of `t`. -/
def fileNameInt (t : Time) : String :=
  "/tmp/boshdns_top_internal_requests_" ++ t.Format ++ ".txt"

/-- Name of the external artifact of the hour of `t`. -/
def fileNameExt (t : Time) : String :=
  "/tmp/boshdns_top_external_requests_" ++ t.Format ++ ".txt"

/-- Lines 134 to 176, run on the callee's copy `p` of the adapter: returns the
copy, the file system and the file-system calls made. -/
def snapshot (p : pluginHandlerAdapter) (env : Env) (fs : FS) :
    pluginHandlerAdapter × FS × List Event :=
  let t := env.now
  if !fs.exists (fileNameInt t) then
    let internalData := snapshotData env.rangeOrder p.intRequests
    let externalData := snapshotData env.rangeOrder p.extRequests
    let intFile := createAndWrite env fs (fileNameInt t) internalData
    let extFile := createAndWrite env intFile.1 (fileNameExt t) externalData
    ({ p with intRequests := GoMap.empty, extRequests := GoMap.empty }, extFile.1,
      Event.Stat (fileNameInt t) :: (intFile.2 ++ extFile.2))
  else
    (p, fs, [Event.Stat (fileNameInt t)])

/-- What a call of `ServeDNS` returns and leaves behind. -/
structure ServeResult where
  /-- the first return value -/
  rcode : Int
  /-- the second return value, `none` for a nil error -/
  err : Option String
  /-- the caller's adapter after the call -/
  adapter : pluginHandlerAdapter
  /-- the callee's copy of the adapter when it returns -/
  receiver : pluginHandlerAdapter
  /-- the file system after the call -/
  fs : FS
  /-- the calls made, in order -/
  trace : List Event

/-- Go `func (p pluginHandlerAdapter) ServeDNS(ctx, writer, m) (int, error)`.
The element updates of `dispatch` reach the caller's maps; the field
assignments of `snapshot` stay in the copy. -/
def ServeDNS (p : pluginHandlerAdapter) (env : Env) (fs : FS) (ctx : Context)
    (writer : ResponseWriter) (m : Msg) : ServeResult :=
  match ctx.Value with
  | none =>
    { rcode := 0, err := some "No DNS request type found in context",
      adapter := p, receiver := p, fs := fs, trace := [] }
  | some v =>
    let d := dispatch p v writer m
    let s := snapshot d.1 env fs
    { rcode := 0, err := none, adapter := d.1, receiver := s.1, fs := s.2.1,
      trace := d.2 ++ s.2.2 }

/-- Two successive calls of `ServeDNS` on one adapter: the second call starts from
the adapter and the file system the first call left. -/
def serveTwice (p : pluginHandlerAdapter) (env1 env2 : Env) (fs : FS) (ctx1 ctx2 : Context)
    (writer1 writer2 : ResponseWriter) (m1 m2 : Msg) : ServeResult × ServeResult :=
  let r1 := ServeDNS p env1 fs ctx1 writer1 m1
  (r1, ServeDNS r1.adapter env2 r1.fs ctx2 writer2 m2)

/-! ## Example inputs -/

/-- The iteration order that visits the entries as listed. -/
def idOrder : RangeOrder := ⟨id, fun _ => List.Perm.refl _⟩

/-- A time in the hour `2024-03-07-09`. -/
def sampleTime : Time := ⟨2024, 3, 7, 9, 15, 2⟩

/-- A later time in the same hour. -/
def sampleTimeLater : Time := ⟨2024, 3, 7, 9, 48, 30⟩

/-- A time in the next hour. -/
def nextHourTime : Time := ⟨2024, 3, 7, 10, 0, 5⟩

/-- An environment in which every file operation succeeds. -/
def envOk (t : Time) : Env :=
  { now := t, rangeOrder := idOrder, createFails := fun _ => false, writeFails := fun _ => false }

/-- An environment in which `os.Create` of the internal artifact fails. -/
def envCreateIntFails (t : Time) : Env :=
  { now := t, rangeOrder := idOrder, createFails := fun name => name == fileNameInt t,
    writeFails := fun _ => false }

/-- An adapter with both handlers, as built by the constructor. -/
def adapterBoth : pluginHandlerAdapter := NewPluginHandlerAdapter (some ⟨1⟩) (some ⟨2⟩) ⟨0⟩

/-- An adapter with an internal handler only. -/
def adapterIntOnly : pluginHandlerAdapter := NewPluginHandlerAdapter (some ⟨1⟩) none ⟨0⟩

/-- A message with the single question `a.`. -/
def msgA : Msg := ⟨[⟨"a.", 1, 1⟩]⟩

/-- A message asking `a.` twice and `b.` once. -/
def msgAAB : Msg := ⟨[⟨"a.", 1, 1⟩, ⟨"b.", 1, 1⟩, ⟨"a.", 28, 1⟩]⟩

/-- A response writer. -/
def writer0 : ResponseWriter := ⟨7⟩

/-- A file system that already holds the internal artifact of the hour of `sampleTime`. -/
def fsWithArtifact : FS := [(fileNameInt sampleTime, "")]

/-- The store in which `a.` has the largest count a Go `int` holds. -/
def storeAtMax : GoMap := ⟨[("a.", 9223372036854775807)], by decide⟩

/-- An adapter with both handlers whose external store is `storeAtMax`. -/
def adapterAtMax : pluginHandlerAdapter := { adapterBoth with extRequests := storeAtMax }

/-- The store with `a:5`, `b:5` and `c:3`. -/
def exampleStore : GoMap := ⟨[("a", 5), ("b", 5), ("c", 3)], by decide⟩

/-- Entries `n150:150, n149:149, ..., n1:1`: 150 names with 150 distinct counts. -/
def entries150 : List (String × Int) :=
  (List.range 150).map (fun (i : Nat) => ("n" ++ toString (150 - i), ((150 - i : Nat) : Int)))

set_option maxRecDepth 100000 in
/-- The store with the entries `entries150`. -/
def store150 : GoMap := ⟨entries150, by decide⟩

/-! ## Lemmas on maps and counting -/

theorem lookup_setEntry {κ ν : Type} [DecidableEq κ] (l : List (κ × ν)) (k : κ) (v : ν) (n : κ) :
    (setEntry l k v).lookup n = if n = k then some v else l.lookup n := by
  induction l with
  | nil =>
    by_cases h : n = k
    · simp [setEntry, List.lookup, h]
    · have hb : (n == k) = false := by simpa using h
      simp [setEntry, List.lookup, h, hb]
  | cons e rest ih =>
    obtain ⟨k', v'⟩ := e
    by_cases hk : k' = k
    · subst hk
      by_cases h : n = k'
      · simp [setEntry, List.lookup, h]
      · have hb : (n == k') = false := by simpa using h
        simp [setEntry, List.lookup, h, hb]
    · by_cases h : n = k'
      · subst h
        have : ¬ n = k := hk
        simp [setEntry, List.lookup, hk, this]
      · have hb : (n == k') = false := by simpa using h
        simp [setEntry, List.lookup, hk, hb, ih]

theorem wrapInt64_of_inRange (x : Int) (hlo : MinInt64 ≤ x) (hhi : x ≤ MaxInt64) :
    wrapInt64 x = x := by
  unfold MinInt64 at hlo
  unfold MaxInt64 at hhi
  unfold wrapInt64
  omega

theorem GoMap.lookup_incr (m : GoMap) (k n : String) :
    (m.incr k).lookup n = if n = k then some (wrapInt64 (m.get k + 1)) else m.lookup n := by
  simp [GoMap.incr, GoMap.lookup, lookup_setEntry]

theorem GoMap.get_incr (m : GoMap) (k n : String) :
    (m.incr k).get n = if n = k then wrapInt64 (m.get n + 1) else m.get n := by
  unfold GoMap.get
  rw [GoMap.lookup_incr]
  by_cases h : n = k
  · subst h; simp [GoMap.get]
  · simp [h]

theorem countQuestions_cons (s : GoMap) (q : Question) (rest : List Question) :
    countQuestions s (q :: rest) = countQuestions (s.incr q.Name) rest := rfl

theorem countQuestions_get (qs : List Question) (s : GoMap) (n : String)
    (hlo : MinInt64 ≤ s.get n)
    (hhi : s.get n + ((qs.map Question.Name).count n : Nat) ≤ MaxInt64) :
    (countQuestions s qs).get n = s.get n + ((qs.map Question.Name).count n : Nat) := by
  induction qs generalizing s with
  | nil => simp [countQuestions]
  | cons q rest ih =>
    rw [List.map_cons, List.count_cons] at hhi
    rw [countQuestions_cons, List.map_cons, List.count_cons]
    by_cases h : n = q.Name
    · have hq : (q.Name == n) = true := by simp [h]
      rw [hq] at hhi
      simp only [if_true, Nat.cast_add, Nat.cast_one] at hhi
      have hstep : (s.incr q.Name).get n = s.get n + 1 := by
        rw [GoMap.get_incr, if_pos h]
        exact wrapInt64_of_inRange _ (by omega) (by omega)
      rw [ih (s.incr q.Name) (by rw [hstep]; omega) (by rw [hstep]; omega), hstep, hq]
      simp only [if_true, Nat.cast_add, Nat.cast_one]
      omega
    · have hq : (q.Name == n) = false := by
        simpa using fun e : q.Name = n => h e.symm
      rw [hq] at hhi
      simp only [Bool.false_eq_true, if_false, Nat.add_zero] at hhi
      have hstep : (s.incr q.Name).get n = s.get n := by
        rw [GoMap.get_incr, if_neg h]
      rw [ih (s.incr q.Name) (by rw [hstep]; exact hlo) (by rw [hstep]; exact hhi), hstep, hq]
      simp

theorem countQuestions_lookup_of_not_asked (qs : List Question) (s : GoMap) (n : String)
    (h0 : (qs.map Question.Name).count n = 0) :
    (countQuestions s qs).lookup n = s.lookup n := by
  induction qs generalizing s with
  | nil => rfl
  | cons q rest ih =>
    rw [List.map_cons, List.count_cons] at h0
    have hne : ¬ n = q.Name := by
      intro e
      have hq : (q.Name == n) = true := by simp [e]
      rw [hq] at h0
      simp at h0
    have hrest : (rest.map Question.Name).count n = 0 := by omega
    rw [countQuestions_cons, ih _ hrest, GoMap.lookup_incr, if_neg hne]

theorem countQuestions_present (qs : List Question) (s : GoMap) (n : String)
    (h : (s.lookup n).isSome = true ∨ (qs.map Question.Name).count n ≠ 0) :
    ((countQuestions s qs).lookup n).isSome = true := by
  induction qs generalizing s with
  | nil =>
    rcases h with h | h
    · exact h
    · simp at h
  | cons q rest ih =>
    rw [countQuestions_cons]
    apply ih
    by_cases hq : n = q.Name
    · left
      rw [GoMap.lookup_incr, if_pos hq]
      rfl
    · rcases h with h | h
      · left
        rw [GoMap.lookup_incr, if_neg hq]
        exact h
      · right
        rw [List.map_cons, List.count_cons] at h
        have hb : (q.Name == n) = false := by
          simpa using fun e : q.Name = n => hq e.symm
        rw [hb] at h
        simpa using h

theorem countQuestions_first_ask (qs : List Question) (s : GoMap) (n : String)
    (hn : s.lookup n = none) (h1 : (qs.map Question.Name).count n = 1) :
    (countQuestions s qs).lookup n = some 1 := by
  have hget0 : s.get n = 0 := by simp [GoMap.get, hn]
  have hget : (countQuestions s qs).get n = 1 := by
    rw [countQuestions_get qs s n (by rw [hget0]; decide) (by rw [hget0, h1]; decide), hget0, h1]
    rfl
  have hsome := countQuestions_present qs s n (Or.inr (by rw [h1]; decide))
  obtain ⟨c, hc⟩ := Option.isSome_iff_exists.1 hsome
  have hc1 : c = 1 := by
    have : (countQuestions s qs).get n = c := by simp [GoMap.get, hc]
    rw [← this, hget]
  rw [hc, hc1]

/-! ## Lemmas on `invertMap`, the sort and the rendering loop -/

theorem foundLoop_eq (ks : List Int) (v : Int) (b : Bool) :
    ks.foldl (fun found i => if i = v then true else found) b = (b || decide (v ∈ ks)) := by
  induction ks generalizing b with
  | nil => simp
  | cons k rest ih =>
    rw [List.foldl_cons, ih]
    by_cases h : k = v
    · subst h; simp
    · have h' : ¬ v = k := fun e => h e.symm
      simp [h, h']

theorem invertMap_snoc (l : List (String × Int)) (e : String × Int) :
    invertMap (l ++ [e]) =
      ((invertMap l).1.set e.2 ((invertMap l).1.get e.2 ++ [e.1]),
        if e.2 ∈ (invertMap l).2 then (invertMap l).2 else (invertMap l).2 ++ [e.2]) := by
  unfold invertMap
  rw [List.foldl_append]
  simp only [List.foldl_cons, List.foldl_nil, foundLoop_eq, Bool.false_or]
  by_cases h : e.2 ∈ (List.foldl (fun (acc : InvMap × List Int) (e : String × Int) =>
      (acc.1.set e.2 (acc.1.get e.2 ++ [e.1]),
        if (!decide (e.2 ∈ acc.2)) = true then acc.2 ++ [e.2] else acc.2)) ([], []) l).2
  · simp [h]
  · simp [h]

theorem InvMap.get_set (inv : InvMap) (k c : Int) (names : List String) :
    (inv.set k names).get c = if c = k then names else inv.get c := by
  unfold InvMap.get InvMap.set
  rw [lookup_setEntry]
  by_cases h : c = k
  · simp [h]
  · simp [h]

theorem invertMap_keys_mem (l : List (String × Int)) :
    ∀ c, c ∈ (invertMap l).2 ↔ c ∈ l.map Prod.snd := by
  induction l using List.reverseRecOn with
  | nil => intro c; simp [invertMap]
  | append_singleton l e ih =>
    intro c
    rw [invertMap_snoc]
    by_cases h : e.2 ∈ (invertMap l).2
    · simp only [h, if_true, List.map_append, List.mem_append, List.map_cons, List.map_nil,
        List.mem_singleton, ih]
      constructor
      · exact Or.inl
      · rintro (h1 | h1)
        · exact h1
        · rw [h1]; exact (ih e.2).1 h
    · simp only [h, if_false, List.map_append, List.mem_append, List.map_cons, List.map_nil,
        List.mem_singleton, ih]

theorem invertMap_keys_nodup (l : List (String × Int)) : (invertMap l).2.Nodup := by
  induction l using List.reverseRecOn with
  | nil => simp [invertMap]
  | append_singleton l e ih =>
    rw [invertMap_snoc]
    by_cases h : e.2 ∈ (invertMap l).2
    · simpa [h] using ih
    · simp only [h, if_false]
      exact List.Nodup.append ih (List.nodup_singleton _)
        (by simpa [List.disjoint_singleton] using h)

theorem invertMap_get (l : List (String × Int)) :
    ∀ c, (invertMap l).1.get c = (l.filter (fun e => e.2 = c)).map Prod.fst := by
  induction l using List.reverseRecOn with
  | nil => intro c; simp [invertMap, InvMap.get]
  | append_singleton l e ih =>
    intro c
    rw [invertMap_snoc]
    simp only [InvMap.get_set, List.filter_append, List.map_append, ih]
    by_cases h : c = e.2
    · subst h; simp
    · have h' : ¬ e.2 = c := fun x => h x.symm
      simp [h, h']

theorem mem_iff_lookup (l : List (String × Int)) (hl : (l.map Prod.fst).Nodup) (n : String)
    (c : Int) : (n, c) ∈ l ↔ l.lookup n = some c := by
  induction l with
  | nil => simp
  | cons e rest ih =>
    obtain ⟨k, v⟩ := e
    rw [List.map_cons, List.nodup_cons] at hl
    by_cases h : n = k
    · subst h
      have hnot : ∀ c', (n, c') ∉ rest := fun c' hc => hl.1 (List.mem_map.2 ⟨(n, c'), hc, rfl⟩)
      simp [List.lookup, hnot]
      constructor
      · intro h1; exact h1.symm
      · intro h1; exact h1.symm
    · have hb : (n == k) = false := by simpa using h
      simp [List.lookup, hb, h, ih hl.2]

theorem sortReverse_perm (ks : List Int) : (sortReverse ks).Perm ks :=
  List.perm_insertionSort _ ks

theorem sortReverse_sorted (ks : List Int) : (sortReverse ks).Sorted (fun a b => b ≤ a) :=
  List.sorted_insertionSort _ ks

theorem sortReverse_strict (ks : List Int) (h : ks.Nodup) :
    (sortReverse ks).Pairwise (fun a b => b < a) := by
  have hs := sortReverse_sorted ks
  have hn : (sortReverse ks).Nodup := (sortReverse_perm ks).nodup_iff.2 h
  unfold List.Sorted at hs
  exact (hs.and hn).imp (fun ⟨h1, h2⟩ => lt_of_le_of_ne h1 (fun e => h2 e.symm))

theorem renderLoop_eq (inv : InvMap) (keys : List Int) :
    ∀ (ind : Nat) (data : String), renderLoop inv ind keys data =
      ((keys.take (101 - ind)).map (fun k => formatLevel k (inv.get k))).foldl
        (fun r s => r ++ s) data := by
  induction keys with
  | nil => intro ind data; simp [renderLoop]
  | cons k rest ih =>
    intro ind data
    by_cases h : ind > 100
    · have h0 : 101 - ind = 0 := by omega
      simp [renderLoop, h, h0]
    · have h1 : 101 - ind = (101 - (ind + 1)) + 1 := by omega
      rw [renderLoop, if_neg h, ih, h1, List.take_succ_cons, List.map_cons, List.foldl_cons]

theorem snapshotData_eq (order : RangeOrder) (store : GoMap) :
    snapshotData order store =
      String.join (((rankedLevels (order.order store.entries)).take 101).map
        (fun lv => formatLevel lv.1 lv.2)) := by
  unfold snapshotData rankedLevels String.join
  simp only [renderLoop_eq, Nat.sub_zero, ← List.map_take, List.map_map]
  rfl

theorem order_nodupKeys (order : RangeOrder) (m : GoMap) :
    ((order.order m.entries).map Prod.fst).Nodup :=
  ((order.perm m.entries).map Prod.fst).nodup_iff.2 m.nodupKeys

theorem order_mem_iff_lookup (order : RangeOrder) (m : GoMap) (n : String) (c : Int) :
    (n, c) ∈ order.order m.entries ↔ m.lookup n = some c := by
  rw [(order.perm m.entries).mem_iff]
  exact mem_iff_lookup m.entries m.nodupKeys n c

theorem rankedLevels_fst (l : List (String × Int)) :
    (rankedLevels l).map Prod.fst = sortReverse (invertMap l).2 := by
  unfold rankedLevels
  rw [List.map_map]
  exact List.map_id _

theorem rankedLevels_mem (l : List (String × Int)) (c : Int) (names : List String)
    (h : (c, names) ∈ rankedLevels l) :
    c ∈ l.map Prod.snd ∧ names = (l.filter (fun e => e.2 = c)).map Prod.fst := by
  unfold rankedLevels at h
  obtain ⟨k, hk, he⟩ := List.mem_map.1 h
  have hc : k = c := congrArg Prod.fst he
  have hn : (invertMap l).1.get k = names := congrArg Prod.snd he
  subst hc
  refine ⟨(invertMap_keys_mem l k).1 ((sortReverse_perm _).mem_iff.1 hk), ?_⟩
  rw [← hn, invertMap_get]

/-! ## Lemmas on `dispatch`, `snapshot` and `ServeDNS` -/

theorem requestTypes_ne : DNSRequestTypeExternal ≠ DNSRequestTypeInternal := by decide

theorem dispatch_external (p : pluginHandlerAdapter) (writer : ResponseWriter) (m : Msg)
    (h : p.externalHandler ≠ none) :
    dispatch p DNSRequestTypeExternal writer m =
      ({ p with extRequests := countQuestions p.extRequests m.Question },
        [Event.externalHandlerServeDNS writer m,
         Event.IncrementExternalCounter p.requestManager]) := by
  simp [dispatch, h]

theorem dispatch_internal (p : pluginHandlerAdapter) (writer : ResponseWriter) (m : Msg)
    (h : p.internalHandler ≠ none) :
    dispatch p DNSRequestTypeInternal writer m =
      ({ p with intRequests := countQuestions p.intRequests m.Question },
        [Event.internalHandlerServeDNS writer m,
         Event.IncrementInternalCounter p.requestManager]) := by
  have hne : ¬ DNSRequestTypeInternal = DNSRequestTypeExternal := fun e => requestTypes_ne e.symm
  simp [dispatch, h, hne]

theorem snapshot_of_exists (p : pluginHandlerAdapter) (env : Env) (fs : FS)
    (h : fs.exists (fileNameInt env.now) = true) :
    snapshot p env fs = (p, fs, [Event.Stat (fileNameInt env.now)]) := by
  simp [snapshot, h]

theorem ServeDNS_some (p : pluginHandlerAdapter) (env : Env) (fs : FS) (v : DNSRequestType)
    (writer : ResponseWriter) (m : Msg) :
    ServeDNS p env fs (NewRequestContext v) writer m =
      { rcode := 0, err := none, adapter := (dispatch p v writer m).1,
        receiver := (snapshot (dispatch p v writer m).1 env fs).1,
        fs := (snapshot (dispatch p v writer m).1 env fs).2.1,
        trace := (dispatch p v writer m).2 ++ (snapshot (dispatch p v writer m).1 env fs).2.2 } :=
  rfl

theorem createAndWrite_events (env : Env) (fs : FS) (name data : String) :
    ∀ e ∈ (createAndWrite env fs name data).2, e.isFileOp = true := by
  intro e he
  unfold createAndWrite at he
  split_ifs at he
  · simp only [List.mem_singleton] at he; subst he; rfl
  · simp only [List.mem_cons, List.mem_singleton, List.not_mem_nil, or_false] at he
    rcases he with he | he <;> subst he <;> rfl
  · simp only [List.mem_cons, List.mem_singleton, List.not_mem_nil, or_false] at he
    rcases he with he | he <;> subst he <;> rfl

theorem snapshot_events_fileOp (p : pluginHandlerAdapter) (env : Env) (fs : FS) :
    ∀ e ∈ (snapshot p env fs).2.2, e.isFileOp = true := by
  intro e he
  unfold snapshot at he
  by_cases h : fs.exists (fileNameInt env.now) = true
  · simp [h] at he; subst he; rfl
  · simp only [h] at he
    simp only [Bool.not_false, if_true, List.mem_cons, List.mem_append] at he
    rcases he with he | he | he
    · subst he; rfl
    · exact createAndWrite_events _ _ _ _ e he
    · exact createAndWrite_events _ _ _ _ e he


theorem exists_setEntry (fs : FS) (k v n : String) :
    FS.exists (setEntry fs k v) n = (decide (n = k) || fs.exists n) := by
  unfold FS.exists
  rw [lookup_setEntry]
  by_cases h : n = k
  · simp [h]
  · simp [h]

theorem createAndWrite_exists_mono (env : Env) (fs : FS) (name data n : String)
    (h : fs.exists n = true) : (createAndWrite env fs name data).1.exists n = true := by
  unfold createAndWrite
  split_ifs
  · exact h
  · simp [exists_setEntry, h]
  · simp [exists_setEntry, h]

theorem createAndWrite_exists_self (env : Env) (fs : FS) (name data : String)
    (h : env.createFails name = false) : (createAndWrite env fs name data).1.exists name = true := by
  unfold createAndWrite
  simp only [h]
  by_cases hw : env.writeFails name = true
  · simp [hw, exists_setEntry]
  · simp [hw, exists_setEntry]

theorem createAndWrite_lookup_self (env : Env) (fs : FS) (name data : String)
    (hc : env.createFails name = false) (hw : env.writeFails name = false) :
    (createAndWrite env fs name data).1.lookup name = some data := by
  unfold createAndWrite
  simp [hc, hw, lookup_setEntry]

theorem snapshot_writes_external (p : pluginHandlerAdapter) (env : Env) (fs : FS)
    (hmiss : fs.exists (fileNameInt env.now) = false)
    (hc : env.createFails (fileNameExt env.now) = false)
    (hw : env.writeFails (fileNameExt env.now) = false) :
    (snapshot p env fs).2.1.lookup (fileNameExt env.now) =
      some (snapshotData env.rangeOrder p.extRequests) := by
  unfold snapshot
  simp only [hmiss, Bool.not_false, if_true]
  exact createAndWrite_lookup_self _ _ _ _ hc hw

theorem snapshot_exists_after (p : pluginHandlerAdapter) (env : Env) (fs : FS)
    (h : fs.exists (fileNameInt env.now) = true ∨
      env.createFails (fileNameInt env.now) = false) :
    (snapshot p env fs).2.1.exists (fileNameInt env.now) = true := by
  by_cases hex : fs.exists (fileNameInt env.now) = true
  · rw [snapshot_of_exists p env fs hex]; exact hex
  · have hc : env.createFails (fileNameInt env.now) = false := by
      rcases h with h | h
      · exact absurd h hex
      · exact h
    have hex0 : fs.exists (fileNameInt env.now) = false := by simpa using hex
    unfold snapshot
    simp only [hex0, Bool.not_false, if_true]
    exact createAndWrite_exists_mono _ _ _ _ _ (createAndWrite_exists_self _ _ _ _ hc)

theorem dispatch_events_not_write (p : pluginHandlerAdapter) (v : DNSRequestType)
    (writer : ResponseWriter) (m : Msg) : ∀ e ∈ (dispatch p v writer m).2, e.isWrite = false := by
  intro e he
  unfold dispatch at he
  split_ifs at he
  · simp only [List.mem_cons, List.mem_singleton, List.not_mem_nil, or_false] at he
    rcases he with he | he <;> subst he <;> rfl
  · simp only [List.mem_cons, List.mem_singleton, List.not_mem_nil, or_false] at he
    rcases he with he | he <;> subst he <;> rfl
  · simp at he

/-! ## Lemmas on stores whose counts are pairwise distinct -/

theorem filter_snd_eq_singleton (l : List (String × Int)) (h : (l.map Prod.snd).Nodup)
    (e : String × Int) (he : e ∈ l) : l.filter (fun x => x.2 = e.2) = [e] := by
  induction l with
  | nil => simp at he
  | cons x rest ih =>
    rw [List.map_cons, List.nodup_cons] at h
    have hnone : ∀ y ∈ rest, ¬ y.2 = x.2 := fun y hy hxy =>
      h.1 (List.mem_map.2 ⟨y, hy, hxy⟩)
    rcases List.mem_cons.1 he with hx | hx
    · subst hx
      have : rest.filter (fun y => y.2 = e.2) = [] := by
        rw [List.filter_eq_nil_iff]
        intro y hy
        simpa using hnone y hy
      simp [List.filter_cons, this]
    · have hne : ¬ x.2 = e.2 := fun hxe => hnone e hx hxe.symm
      simp [List.filter_cons, hne, ih h.2 hx]

theorem rankedLevels_of_distinct (l l' : List (String × Int)) (hp : l'.Perm l)
    (hl : (l.map Prod.snd).Pairwise (fun a b => b < a)) :
    rankedLevels l' = l.map (fun e => (e.2, [e.1])) := by
  have hnd : (l.map Prod.snd).Nodup := hl.imp (fun h => (ne_of_lt h).symm)
  have hnd' : (l'.map Prod.snd).Nodup := (hp.map Prod.snd).nodup_iff.2 hnd
  have hkeys : (invertMap l').2.Perm (l.map Prod.snd) := by
    rw [List.perm_ext_iff_of_nodup (invertMap_keys_nodup l') hnd]
    intro c
    rw [invertMap_keys_mem, (hp.map Prod.snd).mem_iff]
  have hsorted : (l.map Prod.snd).Sorted (fun a b => b ≤ a) := hl.imp (fun h => le_of_lt h)
  have hsort : sortReverse (invertMap l').2 = l.map Prod.snd :=
    List.eq_of_perm_of_sorted ((sortReverse_perm _).trans hkeys) (sortReverse_sorted _) hsorted
  unfold rankedLevels
  rw [hsort, List.map_map]
  apply List.map_congr_left
  intro e he
  have hget : (invertMap l').1.get e.2 = [e.1] := by
    rw [invertMap_get]
    have h1 : (l'.filter (fun x => x.2 = e.2)).Perm [e] := by
      rw [← filter_snd_eq_singleton l hnd e he]
      exact hp.filter _
    rw [List.perm_singleton.1 h1]
    rfl
  simp [hget]

theorem entries150_descending : (entries150.map Prod.snd).Pairwise (fun a b => b < a) := by
  unfold entries150
  rw [List.map_map, List.pairwise_map]
  refine (List.pairwise_lt_range 150).imp_of_mem ?_
  intro a b ha hb hab
  rw [List.mem_range] at ha hb
  simp only [Function.comp]
  omega

/-! ## Dispatch and counting -/

/-- C1, amended: when the internal artifact of the current hour exists, a request
classified External and served by an adapter with an external handler leaves the
external store mapping every name, whose previous count (0 when absent) plus the
number of questions of the message with that name does not exceed the largest
`int`, to that sum; a name that is not asked keeps its entry, a name never seen
and asked once stands at 1, the internal store is unchanged and nothing is
reset.  The same holds with the roles of External and Internal exchanged.  (The
lower bound `MinInt64` holds of every Go `int`.) -/
theorem C1_counts_per_question (p : pluginHandlerAdapter) (env : Env) (fs : FS)
    (writer : ResponseWriter) (m : Msg) (hArt : fs.exists (fileNameInt env.now) = true) :
    (p.externalHandler ≠ none →
      (∀ n, MinInt64 ≤ p.extRequests.get n →
        p.extRequests.get n + ((m.Question.map Question.Name).count n : Nat) ≤ MaxInt64 →
        (ServeDNS p env fs (NewRequestContext DNSRequestTypeExternal) writer m).adapter.extRequests.get n
          = p.extRequests.get n + ((m.Question.map Question.Name).count n : Nat)) ∧
      (∀ n, (m.Question.map Question.Name).count n = 0 →
        (ServeDNS p env fs (NewRequestContext DNSRequestTypeExternal) writer m).adapter.extRequests.lookup n
          = p.extRequests.lookup n) ∧
      (∀ n, p.extRequests.lookup n = none → (m.Question.map Question.Name).count n = 1 →
        (ServeDNS p env fs (NewRequestContext DNSRequestTypeExternal) writer m).adapter.extRequests.lookup n
          = some 1) ∧
      (ServeDNS p env fs (NewRequestContext DNSRequestTypeExternal) writer m).adapter.intRequests
          = p.intRequests ∧
      (ServeDNS p env fs (NewRequestContext DNSRequestTypeExternal) writer m).receiver
          = (ServeDNS p env fs (NewRequestContext DNSRequestTypeExternal) writer m).adapter) ∧
    (p.internalHandler ≠ none →
      (∀ n, MinInt64 ≤ p.intRequests.get n →
        p.intRequests.get n + ((m.Question.map Question.Name).count n : Nat) ≤ MaxInt64 →
        (ServeDNS p env fs (NewRequestContext DNSRequestTypeInternal) writer m).adapter.intRequests.get n
          = p.intRequests.get n + ((m.Question.map Question.Name).count n : Nat)) ∧
      (∀ n, (m.Question.map Question.Name).count n = 0 →
        (ServeDNS p env fs (NewRequestContext DNSRequestTypeInternal) writer m).adapter.intRequests.lookup n
          = p.intRequests.lookup n) ∧
      (∀ n, p.intRequests.lookup n = none → (m.Question.map Question.Name).count n = 1 →
        (ServeDNS p env fs (NewRequestContext DNSRequestTypeInternal) writer m).adapter.intRequests.lookup n
          = some 1) ∧
      (ServeDNS p env fs (NewRequestContext DNSRequestTypeInternal) writer m).adapter.extRequests
          = p.extRequests ∧
      (ServeDNS p env fs (NewRequestContext DNSRequestTypeInternal) writer m).receiver
          = (ServeDNS p env fs (NewRequestContext DNSRequestTypeInternal) writer m).adapter) := by
  constructor
  · intro h
    simp only [ServeDNS_some, dispatch_external p writer m h, snapshot_of_exists _ env fs hArt]
    exact ⟨fun n hlo hhi => countQuestions_get _ _ n hlo hhi,
      fun n h0 => countQuestions_lookup_of_not_asked _ _ n h0,
      fun n hn h1 => countQuestions_first_ask _ _ n hn h1, trivial, trivial⟩
  · intro h
    simp only [ServeDNS_some, dispatch_internal p writer m h, snapshot_of_exists _ env fs hArt]
    exact ⟨fun n hlo hhi => countQuestions_get _ _ n hlo hhi,
      fun n h0 => countQuestions_lookup_of_not_asked _ _ n h0,
      fun n hn h1 => countQuestions_first_ask _ _ n hn h1, trivial, trivial⟩

/-- Witness of the amended C1: the adapter with both handlers, a message asking
`a.` twice, the artifact present. -/
theorem C1_counts_per_question_witness :
    fsWithArtifact.exists (fileNameInt (envOk sampleTime).now) = true ∧
    adapterBoth.externalHandler ≠ none ∧
    MinInt64 ≤ adapterBoth.extRequests.get "a." ∧
    adapterBoth.extRequests.get "a." + ((msgAAB.Question.map Question.Name).count "a." : Nat)
      ≤ MaxInt64 ∧
    (ServeDNS adapterBoth (envOk sampleTime) fsWithArtifact
      (NewRequestContext DNSRequestTypeExternal) writer0 msgAAB).adapter.extRequests.get "a."
        = adapterBoth.extRequests.get "a." + ((msgAAB.Question.map Question.Name).count "a." : Nat) :=
  ⟨by decide, by decide, by decide, by decide,
    ((C1_counts_per_question adapterBoth (envOk sampleTime) fsWithArtifact writer0 msgAAB
      (by decide)).1 (by decide)).1 "a." (by decide) (by decide)⟩

/-- Counterexample to C1 as stated: the external store holds `a.` at the largest
`int`, the artifact exists and an external request asks `a.` once.  The count
wraps around to the smallest `int` instead of being the previous count plus 1. -/
theorem C1_counterexample_overflow :
    fsWithArtifact.exists (fileNameInt (envOk sampleTime).now) = true ∧
    adapterAtMax.externalHandler ≠ none ∧
    adapterAtMax.extRequests.get "a." = 9223372036854775807 ∧
    (msgA.Question.map Question.Name).count "a." = 1 ∧
    (ServeDNS adapterAtMax (envOk sampleTime) fsWithArtifact
      (NewRequestContext DNSRequestTypeExternal) writer0 msgA).adapter.extRequests.get "a."
        = -9223372036854775808 ∧
    (ServeDNS adapterAtMax (envOk sampleTime) fsWithArtifact
      (NewRequestContext DNSRequestTypeExternal) writer0 msgA).adapter.extRequests.get "a."
        ≠ adapterAtMax.extRequests.get "a." + ((msgA.Question.map Question.Name).count "a." : Nat) := by
  decide

/-- C2: without a classification in the context `ServeDNS` returns a non-nil error
(the missing-classification error) and code 0, makes no call at all (no handler,
no metrics increment, no `Stat`, `Create` or write), and leaves both stores, in
the caller's adapter and in the callee's copy, and the file system unchanged. -/
theorem C2_missing_classification (p : pluginHandlerAdapter) (env : Env) (fs : FS)
    (writer : ResponseWriter) (m : Msg) :
    (ServeDNS p env fs Background writer m).err ≠ none ∧
    (ServeDNS p env fs Background writer m).err = some "No DNS request type found in context" ∧
    (ServeDNS p env fs Background writer m).rcode = 0 ∧
    (ServeDNS p env fs Background writer m).trace = [] ∧
    (ServeDNS p env fs Background writer m).adapter = p ∧
    (ServeDNS p env fs Background writer m).receiver = p ∧
    (ServeDNS p env fs Background writer m).fs = fs :=
  ⟨by simp [ServeDNS, Background], rfl, rfl, rfl, rfl, rfl, rfl⟩

/-- C3: under classification External with no external handler, whatever the
internal handler, both stores of the adapter are unchanged, the only calls made
are file-system calls of the snapshot step (so no handler is invoked and no
metrics increment is called), and the result is code 0 with a nil error. -/
theorem C3_external_without_handler (p : pluginHandlerAdapter) (env : Env) (fs : FS)
    (writer : ResponseWriter) (m : Msg) (hExt : p.externalHandler = none) :
    (ServeDNS p env fs (NewRequestContext DNSRequestTypeExternal) writer m).adapter = p ∧
    (∀ e ∈ (ServeDNS p env fs (NewRequestContext DNSRequestTypeExternal) writer m).trace,
      e.isFileOp = true) ∧
    (ServeDNS p env fs (NewRequestContext DNSRequestTypeExternal) writer m).err = none ∧
    (ServeDNS p env fs (NewRequestContext DNSRequestTypeExternal) writer m).rcode = 0 := by
  have hd : dispatch p DNSRequestTypeExternal writer m = (p, []) := by
    simp [dispatch, hExt, requestTypes_ne]
  simp only [ServeDNS_some, hd, List.nil_append]
  exact ⟨trivial, snapshot_events_fileOp p env fs, trivial, trivial⟩

/-- Witness of C3: an adapter with an internal handler only. -/
theorem C3_external_without_handler_witness :
    adapterIntOnly.externalHandler = none ∧
    (ServeDNS adapterIntOnly (envOk sampleTime) [] (NewRequestContext DNSRequestTypeExternal)
      writer0 msgA).adapter = adapterIntOnly :=
  ⟨rfl, (C3_external_without_handler adapterIntOnly (envOk sampleTime) [] writer0 msgA rfl).1⟩

/-- C8: under classification External with an external handler, the calls made to
the collaborators are exactly two, in this order: the external handler's
`ServeDNS` with the same writer and message, then `IncrementExternalCounter`;
the internal handler and `IncrementInternalCounter` are not called, whatever the
internal handler.  The same holds with the roles exchanged. -/
theorem C8_forwards_once (p : pluginHandlerAdapter) (env : Env) (fs : FS)
    (writer : ResponseWriter) (m : Msg) :
    (p.externalHandler ≠ none →
      (ServeDNS p env fs (NewRequestContext DNSRequestTypeExternal) writer m).trace.filter
          (fun e => !e.isFileOp)
        = [Event.externalHandlerServeDNS writer m,
           Event.IncrementExternalCounter p.requestManager]) ∧
    (p.internalHandler ≠ none →
      (ServeDNS p env fs (NewRequestContext DNSRequestTypeInternal) writer m).trace.filter
          (fun e => !e.isFileOp)
        = [Event.internalHandlerServeDNS writer m,
           Event.IncrementInternalCounter p.requestManager]) := by
  have hnil : ∀ q : pluginHandlerAdapter,
      (snapshot q env fs).2.2.filter (fun e => !e.isFileOp) = [] := by
    intro q
    rw [List.filter_eq_nil_iff]
    intro e he
    simp [snapshot_events_fileOp q env fs e he]
  constructor
  · intro h
    simp only [ServeDNS_some, dispatch_external p writer m h, List.filter_append, hnil]
    rfl
  · intro h
    simp only [ServeDNS_some, dispatch_internal p writer m h, List.filter_append, hnil]
    rfl

/-- Witness of C8: the adapter with both handlers. -/
theorem C8_forwards_once_witness :
    adapterBoth.externalHandler ≠ none ∧
    (ServeDNS adapterBoth (envOk sampleTime) [] (NewRequestContext DNSRequestTypeExternal)
        writer0 msgA).trace.filter (fun e => !e.isFileOp)
      = [Event.externalHandlerServeDNS writer0 msgA,
         Event.IncrementExternalCounter adapterBoth.requestManager] :=
  ⟨by decide, (C8_forwards_once adapterBoth (envOk sampleTime) [] writer0 msgA).1 (by decide)⟩

/-- C9: for every request with a classification, in every environment, also one
in which `os.Create` or `WriteString` fails for either artifact, `ServeDNS`
returns code 0 and a nil error. -/
theorem C9_write_failure_not_propagated (p : pluginHandlerAdapter) (env : Env) (fs : FS)
    (v : DNSRequestType) (writer : ResponseWriter) (m : Msg) :
    (ServeDNS p env fs (NewRequestContext v) writer m).rcode = 0 ∧
    (ServeDNS p env fs (NewRequestContext v) writer m).err = none :=
  ⟨rfl, rfl⟩

/-! ## Ranking and snapshot -/

/-- C4: for every store and every iteration order, the ranking built by
`invertMap` and the descending sort has strictly descending counts, its counts
are exactly the counts occurring in the store, and the names of the level with
count `c` are, without repetition, exactly the names the store maps to `c`.  For
the store with `a:5`, `b:5` and `c:3` the ranking is the level 5 with `a` and
`b` (in either order) followed by the level 3 with `c`. -/
theorem C4_ranking_groups_by_count (m : GoMap) (ro : RangeOrder) :
    ((rankedLevels (ro.order m.entries)).map Prod.fst).Pairwise (fun a b => b < a) ∧
    (∀ c, c ∈ (rankedLevels (ro.order m.entries)).map Prod.fst ↔ ∃ n, m.lookup n = some c) ∧
    (∀ c names, (c, names) ∈ rankedLevels (ro.order m.entries) →
      names.Nodup ∧ ∀ n, n ∈ names ↔ m.lookup n = some c) ∧
    (rankedLevels (ro.order exampleStore.entries) = [(5, ["a", "b"]), (3, ["c"])] ∨
      rankedLevels (ro.order exampleStore.entries) = [(5, ["b", "a"]), (3, ["c"])]) := by
  refine ⟨?_, ?_, ?_, ?_⟩
  · rw [rankedLevels_fst]
    exact sortReverse_strict _ (invertMap_keys_nodup _)
  · intro c
    rw [rankedLevels_fst, (sortReverse_perm _).mem_iff, invertMap_keys_mem]
    constructor
    · intro h
      obtain ⟨e, he, hc⟩ := List.mem_map.1 h
      refine ⟨e.1, (order_mem_iff_lookup ro m e.1 c).1 ?_⟩
      rw [← hc]; exact he
    · rintro ⟨n, hn⟩
      exact List.mem_map.2 ⟨(n, c), (order_mem_iff_lookup ro m n c).2 hn, rfl⟩
  · intro c names h
    obtain ⟨_, hnames⟩ := rankedLevels_mem _ c names h
    subst hnames
    constructor
    · exact ((List.filter_sublist _).map Prod.fst).nodup (order_nodupKeys ro m)
    · intro n
      rw [← order_mem_iff_lookup ro m n c]
      constructor
      · intro hn
        obtain ⟨e, he, hfst⟩ := List.mem_map.1 hn
        obtain ⟨hmem, hsnd⟩ := List.mem_filter.1 he
        have hsnd' : e.2 = c := by simpa using hsnd
        rw [← hfst, ← hsnd']; exact hmem
      · intro hn
        exact List.mem_map.2 ⟨(n, c), List.mem_filter.2 ⟨hn, by simp⟩, rfl⟩
  · have hall : ∀ l ∈ List.permutations' exampleStore.entries,
        rankedLevels l = [(5, ["a", "b"]), (3, ["c"])] ∨
        rankedLevels l = [(5, ["b", "a"]), (3, ["c"])] := by decide
    exact hall _ (List.mem_permutations'.2 (ro.perm _))

/-- C5 at the store of 150 names with counts 150 down to 1: for every iteration
order the text written consists of the 101 lines of the counts 150 down to 50,
not of 100 lines, so the name `n50`, whose count is below the 100th highest, is
written.  The second part states it for the external artifact that `ServeDNS`
writes when an internal request arrives in an hour without artifact. -/
theorem C5_snapshot_keeps_101_levels (ro : RangeOrder) :
    snapshotData ro store150 =
      String.join ((List.range 101).map fun (i : Nat) =>
        formatLevel ((150 - i : Nat) : Int) ["n" ++ toString (150 - i)]) ∧
    (ServeDNS { adapterBoth with extRequests := store150 }
        { envOk sampleTime with rangeOrder := ro } []
        (NewRequestContext DNSRequestTypeInternal) writer0 msgA).fs.lookup
          (fileNameExt sampleTime) =
      some (String.join ((List.range 101).map fun (i : Nat) =>
        formatLevel ((150 - i : Nat) : Int) ["n" ++ toString (150 - i)])) := by
  have hdata : snapshotData ro store150 =
      String.join ((List.range 101).map fun (i : Nat) =>
        formatLevel ((150 - i : Nat) : Int) ["n" ++ toString (150 - i)]) := by
    rw [snapshotData_eq,
      rankedLevels_of_distinct entries150 _ (ro.perm store150.entries) entries150_descending]
    have htake : entries150.take 101 =
        (List.range 101).map
          (fun (i : Nat) => ("n" ++ toString (150 - i), ((150 - i : Nat) : Int))) := by
      unfold entries150
      rw [← List.map_take, List.take_range]
      rfl
    rw [← List.map_take, htake, List.map_map, List.map_map]
    rfl
  refine ⟨hdata, ?_⟩
  rw [ServeDNS_some, dispatch_internal _ _ _ (by decide)]
  rw [← hdata]
  exact snapshot_writes_external _ { envOk sampleTime with rangeOrder := ro } [] rfl rfl rfl

/-- C6 at a fresh adapter: an external request for `a.` arrives in an hour without
artifact, the snapshot is written and the callee's copy of the store is emptied,
but the adapter's own store still holds `a.` with count 1, and the same request
in the next hour leaves `a.` at 2. -/
theorem C6_reset_lost_on_value_receiver :
    adapterBoth = NewPluginHandlerAdapter (some ⟨1⟩) (some ⟨2⟩) ⟨0⟩ ∧
    FS.exists [] (fileNameInt sampleTime) = false ∧
    (serveTwice adapterBoth (envOk sampleTime) (envOk nextHourTime) []
        (NewRequestContext DNSRequestTypeExternal) (NewRequestContext DNSRequestTypeExternal)
        writer0 writer0 msgA msgA).1.fs.lookup (fileNameExt sampleTime) = some "Count: 1 Name(s): [a.].\n" ∧
    (serveTwice adapterBoth (envOk sampleTime) (envOk nextHourTime) []
        (NewRequestContext DNSRequestTypeExternal) (NewRequestContext DNSRequestTypeExternal)
        writer0 writer0 msgA msgA).1.receiver.extRequests = GoMap.empty ∧
    (serveTwice adapterBoth (envOk sampleTime) (envOk nextHourTime) []
        (NewRequestContext DNSRequestTypeExternal) (NewRequestContext DNSRequestTypeExternal)
        writer0 writer0 msgA msgA).1.adapter.extRequests.entries = [("a.", 1)] ∧
    (serveTwice adapterBoth (envOk sampleTime) (envOk nextHourTime) []
        (NewRequestContext DNSRequestTypeExternal) (NewRequestContext DNSRequestTypeExternal)
        writer0 writer0 msgA msgA).2.adapter.extRequests.get "a." = 2 := by
  decide

/-- Counterexample to C7 as stated: two external requests in the same hour, and
`os.Create` of the internal artifact fails in the first call.  Each call writes
the external artifact, and the second call creates the internal artifact,
changes the file system and resets the stores of its copy. -/
theorem C7_counterexample_create_failure :
    sampleTime.Format = sampleTimeLater.Format ∧
    (envCreateIntFails sampleTime).createFails (fileNameInt sampleTime) = true ∧
    Event.WriteString (fileNameExt sampleTime) "Count: 1 Name(s): [a.].\n" ∈
      (serveTwice adapterBoth (envCreateIntFails sampleTime) (envOk sampleTimeLater) []
        (NewRequestContext DNSRequestTypeExternal) (NewRequestContext DNSRequestTypeExternal)
        writer0 writer0 msgA msgA).1.trace ∧
    Event.WriteString (fileNameExt sampleTime) "Count: 2 Name(s): [a.].\n" ∈
      (serveTwice adapterBoth (envCreateIntFails sampleTime) (envOk sampleTimeLater) []
        (NewRequestContext DNSRequestTypeExternal) (NewRequestContext DNSRequestTypeExternal)
        writer0 writer0 msgA msgA).2.trace ∧
    Event.Create (fileNameInt sampleTime) true ∈
      (serveTwice adapterBoth (envCreateIntFails sampleTime) (envOk sampleTimeLater) []
        (NewRequestContext DNSRequestTypeExternal) (NewRequestContext DNSRequestTypeExternal)
        writer0 writer0 msgA msgA).2.trace ∧
    (serveTwice adapterBoth (envCreateIntFails sampleTime) (envOk sampleTimeLater) []
        (NewRequestContext DNSRequestTypeExternal) (NewRequestContext DNSRequestTypeExternal)
        writer0 writer0 msgA msgA).2.fs ≠
      (serveTwice adapterBoth (envCreateIntFails sampleTime) (envOk sampleTimeLater) []
        (NewRequestContext DNSRequestTypeExternal) (NewRequestContext DNSRequestTypeExternal)
        writer0 writer0 msgA msgA).1.fs ∧
    (serveTwice adapterBoth (envCreateIntFails sampleTime) (envOk sampleTimeLater) []
        (NewRequestContext DNSRequestTypeExternal) (NewRequestContext DNSRequestTypeExternal)
        writer0 writer0 msgA msgA).2.receiver ≠
      (serveTwice adapterBoth (envCreateIntFails sampleTime) (envOk sampleTimeLater) []
        (NewRequestContext DNSRequestTypeExternal) (NewRequestContext DNSRequestTypeExternal)
        writer0 writer0 msgA msgA).2.adapter := by
  decide

/-- C7, amended: for two successive classified requests in the same hour bucket
such that the internal artifact of the bucket existed before the first call or
its `os.Create` in the first call did not fail, the second call's snapshot step
is a no-op: the file system is unchanged, no artifact is created or written, and
the stores of the callee's copy and of the adapter are as the dispatch step left
them.  In particular, whenever the internal artifact of the current bucket
exists on entry, the snapshot step only calls `Stat`. -/
theorem C7_second_call_is_noop (p : pluginHandlerAdapter) (env1 env2 : Env) (fs : FS)
    (v1 v2 : DNSRequestType) (writer1 writer2 : ResponseWriter) (m1 m2 : Msg)
    (hBucket : env1.now.Format = env2.now.Format)
    (hMade : fs.exists (fileNameInt env1.now) = true ∨
      env1.createFails (fileNameInt env1.now) = false) :
    (serveTwice p env1 env2 fs (NewRequestContext v1) (NewRequestContext v2)
        writer1 writer2 m1 m2).2.fs =
      (serveTwice p env1 env2 fs (NewRequestContext v1) (NewRequestContext v2)
        writer1 writer2 m1 m2).1.fs ∧
    (∀ e ∈ (serveTwice p env1 env2 fs (NewRequestContext v1) (NewRequestContext v2)
        writer1 writer2 m1 m2).2.trace, e.isWrite = false) ∧
    (serveTwice p env1 env2 fs (NewRequestContext v1) (NewRequestContext v2)
        writer1 writer2 m1 m2).2.receiver =
      (dispatch (serveTwice p env1 env2 fs (NewRequestContext v1) (NewRequestContext v2)
        writer1 writer2 m1 m2).1.adapter v2 writer2 m2).1 ∧
    (serveTwice p env1 env2 fs (NewRequestContext v1) (NewRequestContext v2)
        writer1 writer2 m1 m2).2.adapter =
      (dispatch (serveTwice p env1 env2 fs (NewRequestContext v1) (NewRequestContext v2)
        writer1 writer2 m1 m2).1.adapter v2 writer2 m2).1 ∧
    (∀ (q : pluginHandlerAdapter) (fs0 : FS), fs0.exists (fileNameInt env2.now) = true →
      snapshot q env2 fs0 = (q, fs0, [Event.Stat (fileNameInt env2.now)])) := by
  have hname : fileNameInt env2.now = fileNameInt env1.now := by
    unfold fileNameInt; rw [hBucket]
  have hex : (ServeDNS p env1 fs (NewRequestContext v1) writer1 m1).fs.exists
      (fileNameInt env2.now) = true := by
    rw [hname, ServeDNS_some]
    exact snapshot_exists_after _ env1 fs hMade
  have hsnap := fun q => snapshot_of_exists q env2 _ hex
  refine ⟨?_, ?_, ?_, ?_, fun q fs0 h => snapshot_of_exists q env2 fs0 h⟩
  · show (ServeDNS _ env2 _ (NewRequestContext v2) writer2 m2).fs = _
    rw [ServeDNS_some, hsnap]
    rfl
  · show ∀ e ∈ (ServeDNS _ env2 _ (NewRequestContext v2) writer2 m2).trace, _
    rw [ServeDNS_some, hsnap]
    intro e he
    rcases List.mem_append.1 he with he | he
    · exact dispatch_events_not_write _ _ _ _ e he
    · simp only [List.mem_singleton] at he
      subst he; rfl
  · show (ServeDNS _ env2 _ (NewRequestContext v2) writer2 m2).receiver = _
    rw [ServeDNS_some, hsnap]
    rfl
  · rfl

/-- Witness of the amended C7: two external requests in the same hour, no failure. -/
theorem C7_second_call_is_noop_witness :
    (envOk sampleTime).now.Format = (envOk sampleTimeLater).now.Format ∧
    (envOk sampleTime).createFails (fileNameInt (envOk sampleTime).now) = false ∧
    (serveTwice adapterBoth (envOk sampleTime) (envOk sampleTimeLater) []
        (NewRequestContext DNSRequestTypeExternal) (NewRequestContext DNSRequestTypeExternal)
        writer0 writer0 msgA msgA).2.fs =
      (serveTwice adapterBoth (envOk sampleTime) (envOk sampleTimeLater) []
        (NewRequestContext DNSRequestTypeExternal) (NewRequestContext DNSRequestTypeExternal)
        writer0 writer0 msgA msgA).1.fs :=
  ⟨by decide, rfl,
    (C7_second_call_is_noop adapterBoth (envOk sampleTime) (envOk sampleTimeLater) []
      DNSRequestTypeExternal DNSRequestTypeExternal writer0 writer0 msgA msgA (by decide)
      (Or.inr rfl)).1⟩

/-! ## Further properties -/

/-- X1: for every store and every iteration order, the text of a snapshot is the
concatenation, in rank order, of the formatted lines of the first 101 levels of
the ranking; the number of lines is the smaller of 101 and the number of levels. -/
theorem X1_snapshot_text_is_first_101_levels (ro : RangeOrder) (store : GoMap) :
    snapshotData ro store =
      String.join (((rankedLevels (ro.order store.entries)).take 101).map
        (fun lv => formatLevel lv.1 lv.2)) ∧
    ((rankedLevels (ro.order store.entries)).take 101).length =
      min 101 (rankedLevels (ro.order store.entries)).length :=
  ⟨snapshotData_eq ro store, List.length_take _ _⟩

/-- X2: for every classified request, whether or not the snapshot step runs, a
name whose previous count plus the number of questions asking it stays within
the range of `int` in both stores has afterwards, in each store of the adapter,
at least its previous count. -/
theorem X2_counts_never_decrease (p : pluginHandlerAdapter) (env : Env) (fs : FS)
    (v : DNSRequestType) (writer : ResponseWriter) (m : Msg) (n : String)
    (hExt : MinInt64 ≤ p.extRequests.get n ∧
      p.extRequests.get n + ((m.Question.map Question.Name).count n : Nat) ≤ MaxInt64)
    (hInt : MinInt64 ≤ p.intRequests.get n ∧
      p.intRequests.get n + ((m.Question.map Question.Name).count n : Nat) ≤ MaxInt64) :
    p.extRequests.get n ≤
      (ServeDNS p env fs (NewRequestContext v) writer m).adapter.extRequests.get n ∧
    p.intRequests.get n ≤
      (ServeDNS p env fs (NewRequestContext v) writer m).adapter.intRequests.get n := by
  rw [ServeDNS_some]
  unfold dispatch
  split_ifs
  · refine ⟨?_, le_refl _⟩
    show p.extRequests.get n ≤ (countQuestions p.extRequests m.Question).get n
    rw [countQuestions_get _ _ n hExt.1 hExt.2]
    exact le_add_of_nonneg_right (Int.natCast_nonneg _)
  · refine ⟨le_refl _, ?_⟩
    show p.intRequests.get n ≤ (countQuestions p.intRequests m.Question).get n
    rw [countQuestions_get _ _ n hInt.1 hInt.2]
    exact le_add_of_nonneg_right (Int.natCast_nonneg _)
  · exact ⟨le_refl _, le_refl _⟩

/-- Witness of X2: an external request for `a.` in an hour without artifact, so the
snapshot step runs. -/
theorem X2_counts_never_decrease_witness :
    FS.exists [] (fileNameInt (envOk sampleTime).now) = false ∧
    adapterBoth.extRequests.get "a." ≤
      (ServeDNS adapterBoth (envOk sampleTime) [] (NewRequestContext DNSRequestTypeExternal)
        writer0 msgA).adapter.extRequests.get "a." :=
  ⟨by decide,
    (X2_counts_never_decrease adapterBoth (envOk sampleTime) [] DNSRequestTypeExternal writer0
      msgA "a." ⟨by decide, by decide⟩ ⟨by decide, by decide⟩).1⟩

end Monitoring
